import Mathlib

/-!
Verification of the trippino ordered-city / transportation subsystem.

The definitions below are a shallow embedding of the Express route handlers
in `src/app/routes/cities.js` and `src/app/routes/transportation.js`,
together with the SQLite schema declared in `src/app/app.js`.  The database
is modelled as lists of rows; SQL statements become list operations:
`get`/`find?`, `all ... ORDER BY` becomes a sort of the filtered list,
`INSERT` appends a row (with `AUTOINCREMENT` modelled by a counter and
column defaults from the schema), `UPDATE ... WHERE id = ?` maps over the
list, `DELETE ... WHERE id = ?` filters the list.

Request data is modelled as the handlers see it after Express parsing:
an authenticated session resolves to a user id (`Option Int`), route
parameters go through `parseInt` (modelled as `Option Int`, `none` for NaN),
and JSON body fields carry the distinctions the code tests for
(`undefined` vs `null` vs string, and numbers vs non-numeric values).
Non-string JSON primitives in string positions and fractional numbers are
outside the model; no claim depends on them.
-/

namespace Trippino

/-- Row of the `trips` table (`src/app/app.js`, schema): only the columns
the city/leg handlers read. -/
structure Trip where
  id : Int
  user_id : Int
deriving DecidableEq, Repr

/-- Row of the `cities` table (`src/app/app.js`, schema): `id` is
`AUTOINCREMENT`, `sort_order INTEGER NOT NULL DEFAULT 0`, `notes` nullable. -/
structure City where
  id : Int
  name : String
  nights : Int
  notes : Option String
  sort_order : Int
  trip_id : Int
deriving DecidableEq, Repr

/-- Row of the `transportation` table as used by
`src/app/routes/transportation.js`. -/
structure Leg where
  id : Int
  trip_id : Int
  from_city_id : Int
  to_city_id : Int
  mode : String
  notes : Option String
deriving DecidableEq, Repr

/-- The relational store: one list of rows per table, plus the
`AUTOINCREMENT` counters for `cities.id` and `transportation.id`. -/
structure DB where
  trips : List Trip
  cities : List City
  transportation : List Leg
  nextCityId : Int
  nextLegId : Int
deriving DecidableEq, Repr

/-- A JSON body field in a string position as the code distinguishes it:
absent (`typeof v === "undefined"`), `null`, or a string. -/
inductive StrVal where
  | undef
  | null
  | str (s : String)
deriving DecidableEq, Repr

/-- A JSON body field in a numeric position: absent, `null`, a number, or
a value whose `Number(...)` coercion is not finite (`nan`). -/
inductive NumVal where
  | undef
  | null
  | num (n : Int)
  | nan
deriving DecidableEq, Repr

/-- JS `String.prototype.trim()`: drop whitespace from both ends.
Defined on the character list so that the kernel can evaluate it
(`String.trim` in core reduces poorly inside `decide`). -/
def jsTrim (s : String) : String :=
  ⟨((s.data.dropWhile Char.isWhitespace).reverse.dropWhile
      Char.isWhitespace).reverse⟩

/-- Result of `parseInt(x, 10)` followed by the route guard
`if (!v || !Number.isInteger(v))`: the guard rejects exactly `NaN`
(modelled `none`) and `0`. -/
def parseId : Option Int → Option Int
  | none => none
  | some v => if v = 0 then none else some v

/-- An HTTP response as the handlers produce it: an error with a status
and message, or one of the JSON success shapes.  `created` and `okCity`
carry the row re-fetched after the write (`none` if the fetch found
nothing), mirroring `res.json(city)` after `get(... WHERE id = ?)`. -/
inductive Resp where
  | err (status : Int) (msg : String)
  | created (c : Option City)
  | okCity (c : Option City)
  | okEmpty
  | okLeg (t : Option Leg)
deriving DecidableEq, Repr

/-- Whether a response is an error (any non-2xx JSON error object). -/
def Resp.isErr : Resp → Bool
  | .err _ _ => true
  | _ => false

/-- Spec section 7 `ValidationError`: surfaced by the routes as HTTP 400. -/
def Resp.isValidationError : Resp → Bool
  | .err s _ => s == 400
  | _ => false

/-- Spec section 7 `NotFoundError`: surfaced by the routes as HTTP 404. -/
def Resp.isNotFoundError : Resp → Bool
  | .err s _ => s == 404
  | _ => false

/-- Embeds `get("SELECT id FROM trips WHERE id = ? AND user_id = ?")`:
the trip-ownership check shared by all six handlers. -/
def findTrip (db : DB) (tripId uid : Int) : Option Trip :=
  db.trips.find? (fun t => t.id == tripId && t.user_id == uid)

/-- Embeds `get("SELECT ... FROM cities WHERE id = ? AND trip_id = ?")`. -/
def findCityInTrip (db : DB) (cityId tripId : Int) : Option City :=
  db.cities.find? (fun c => c.id == cityId && c.trip_id == tripId)

/-- Embeds `get("SELECT ... FROM cities WHERE id = ?")` (fetch by lastID
or by city id after an update). -/
def findCityById (db : DB) (cityId : Int) : Option City :=
  db.cities.find? (fun c => c.id == cityId)

/-- The `ORDER BY sort_order ASC, id ASC` comparison on city rows. -/
def cityLe (a b : City) : Prop :=
  a.sort_order < b.sort_order ∨ (a.sort_order = b.sort_order ∧ a.id ≤ b.id)

instance : DecidableRel cityLe := fun a b => by
  unfold cityLe; infer_instance

/-- Embeds `all("SELECT id, sort_order FROM cities WHERE trip_id = ?
ORDER BY sort_order ASC, id ASC")`. -/
def citiesOfTrip (db : DB) (tripId : Int) : List City :=
  List.insertionSort cityLe (db.cities.filter (fun c => c.trip_id == tripId))

/-- JS `Array.prototype.findIndex`: index of the first element satisfying
the predicate (`-1`, modelled `none`, when there is none). -/
def jsFindIndex (p : α → Bool) : List α → Option Nat
  | [] => none
  | a :: l => if p a then some 0 else (jsFindIndex p l).map (· + 1)

/-- The Adjacency Resolver (spec section 4.3): embeds the
`cities.findIndex(...)` / `cities[fromIdx + 1]` steps of the
transportation handlers. -/
def nextCityOf (db : DB) (tripId cityId : Int) : Option City :=
  match jsFindIndex (fun c => c.id == cityId) (citiesOfTrip db tripId) with
  | none => none
  | some i => (citiesOfTrip db tripId)[i + 1]?

/-- Notes normalization used by the city POST and PUT handlers:
`typeof notes === "string" && notes.trim() !== "" ? notes : null`.
Note the stored string is the raw `notes`, not `notes.trim()`. -/
def cityNotesParam : StrVal → Option String
  | .str s => if jsTrim s = "" then none else some s
  | _ => none

/-- Body of `POST /api/trips/:id/cities`. -/
structure CityPostBody where
  name : StrVal
  nights : NumVal
  notes : StrVal
deriving DecidableEq, Repr

/-- Nights default in the POST handler:
`typeof nights === "undefined" || nights === null ? 1 : Number(nights)`,
`none` when the coercion is `NaN`/infinite (rejected by `isFinite`). -/
def postNights : NumVal → Option Int
  | .undef => some 1
  | .null => some 1
  | .num n => some n
  | .nan => none

/-- Embeds the handler of `POST /api/trips/:id/cities`
(`src/app/routes/cities.js`).  The `INSERT INTO
cities(name, nights, notes, trip_id)` names no `sort_order` column, so the
new row takes the schema default `sort_order = 0`. -/
def postCity (db : DB) (session : Option Int) (tripIdP : Option Int)
    (body : CityPostBody) : DB × Resp :=
  match session with
  | none => (db, .err 401 "not authenticated")
  | some uid =>
    match parseId tripIdP with
    | none => (db, .err 400 "invalid trip id")
    | some tripId =>
      match findTrip db tripId uid with
      | none => (db, .err 404 "trip not found or unauthorized")
      | some _ =>
        match body.name with
        | .str nm =>
          if jsTrim nm = "" then (db, .err 400 "city name required")
          else
            match postNights body.nights with
            | none => (db, .err 400 "nights must be a non-negative number")
            | some n =>
              if n < 0 then
                (db, .err 400 "nights must be a non-negative number")
              else
                let newCity : City :=
                  { id := db.nextCityId, name := jsTrim nm, nights := n,
                    notes := cityNotesParam body.notes,
                    sort_order := 0, trip_id := tripId }
                let db' : DB :=
                  { db with cities := db.cities ++ [newCity],
                            nextCityId := db.nextCityId + 1 }
                (db', .created (findCityById db' db.nextCityId))
        | _ => (db, .err 400 "city name required")

/-- Body of `PUT /api/trips/:tripId/cities/:cityId`. -/
structure CityPutBody where
  name : StrVal
  nights : NumVal
  notes : StrVal
deriving DecidableEq, Repr

/-- Nights coercion in the PUT handler: the field is only skipped when
`typeof nights === "undefined"`; `null` coerces via `Number(null)` to `0`. -/
def putNights : NumVal → Option Int
  | .null => some 0
  | .num n => some n
  | .nan => none
  | .undef => none

/-- The row update built by the PUT handler from the supplied fields, in
the order the code pushes them (name, nights, notes). -/
def applyCityUpdate (body : CityPutBody) (nm : Option String)
    (ni : Option Int) (c : City) : City :=
  let c1 := match nm with | some s => { c with name := s } | none => c
  let c2 := match ni with | some n => { c1 with nights := n } | none => c1
  match body.notes with
  | .undef => c2
  | v => { c2 with notes := cityNotesParam v }

/-- Whether the PUT handler pushes at least one `SET` clause. -/
def putHasFields (body : CityPutBody) : Bool :=
  (body.name != .undef) || (body.nights != .undef) || (body.notes != .undef)

/-- Tail of the PUT city handler after the per-field checks: the empty
`sets` guard, the `UPDATE cities SET ... WHERE id = ?`, and the re-fetch
of the row. -/
def finishPutCity (db : DB) (body : CityPutBody) (nm : Option String)
    (ni : Option Int) (cityId : Int) : DB × Resp :=
  if putHasFields body = false then
    (db, .err 400 "no fields to update")
  else
    let db' : DB :=
      { db with
        cities := db.cities.map (fun c =>
          if c.id == cityId then applyCityUpdate body nm ni c else c) }
    (db', .okCity (findCityById db' cityId))

/-- Nights branch of the PUT city handler: skipped only when the field is
absent; otherwise `Number(nights)` must be finite and non-negative. -/
def putCityNights (db : DB) (body : CityPutBody) (nm : Option String)
    (cityId : Int) : DB × Resp :=
  match body.nights with
  | .undef => finishPutCity db body nm none cityId
  | v =>
    match putNights v with
    | none => (db, .err 400 "nights must be a non-negative number")
    | some n =>
      if n < 0 then (db, .err 400 "nights must be a non-negative number")
      else finishPutCity db body nm (some n) cityId

/-- Embeds the handler of `PUT /api/trips/:tripId/cities/:cityId`
(`src/app/routes/cities.js`): per-field validation in code order (name,
then nights, notes needing none), then the update tail. -/
def putCity (db : DB) (session : Option Int) (tripIdP cityIdP : Option Int)
    (body : CityPutBody) : DB × Resp :=
  match session with
  | none => (db, .err 401 "not authenticated")
  | some uid =>
    match parseId tripIdP with
    | none => (db, .err 400 "invalid trip id")
    | some tripId =>
      match findTrip db tripId uid with
      | none => (db, .err 404 "trip not found or unauthorized")
      | some _ =>
        match parseId cityIdP with
        | none => (db, .err 400 "invalid city id")
        | some cityId =>
          match findCityInTrip db cityId tripId with
          | none => (db, .err 404 "city not found or unauthorized")
          | some _ =>
            match body.name with
            | .null => (db, .err 400 "city name required")
            | .str s =>
              if jsTrim s = "" then (db, .err 400 "city name required")
              else putCityNights db body (some (jsTrim s)) cityId
            | .undef => putCityNights db body none cityId

/-- One element of the reorder body's `sortOrder` array: the handler
destructures `{ id, index }`, parses `id` and binds `index` raw into the
`UPDATE`.  `index` is modelled as the integer the client sends. -/
structure ReorderEntry where
  id : Option Int
  index : Int
deriving DecidableEq, Repr

/-- The `sortOrder` body field: absent (which `|| []` turns into an empty
array), an array, or a non-array value. -/
inductive SortOrderVal where
  | absent
  | arr (l : List ReorderEntry)
  | notArr
deriving DecidableEq, Repr

/-- The per-entry loop of `PUT /api/trips/:tripId/cities`: validate the id,
check the city belongs to the trip, then
`UPDATE cities SET sort_order = ? WHERE id = ?`; the first failing entry
short-circuits with its error and the writes already done stay applied. -/
def reorderLoop (db : DB) (tripId : Int) : List ReorderEntry → DB × Resp
  | [] => (db, .okEmpty)
  | e :: rest =>
    match parseId e.id with
    | none => (db, .err 400 "invalid city id")
    | some cityId =>
      match findCityInTrip db cityId tripId with
      | none => (db, .err 404 "city not found or unauthorized")
      | some _ =>
        let db' : DB :=
          { db with cities := db.cities.map (fun c =>
              if c.id == cityId then { c with sort_order := e.index } else c) }
        reorderLoop db' tripId rest

/-- Embeds the handler of `PUT /api/trips/:tripId/cities`
(`src/app/routes/cities.js`): session, trip id, ownership, the
`Array.isArray` guard on `req.body.sortOrder || []`, then the loop. -/
def reorderCities (db : DB) (session : Option Int) (tripIdP : Option Int)
    (sortOrder : SortOrderVal) : DB × Resp :=
  match session with
  | none => (db, .err 401 "not authenticated")
  | some uid =>
    match parseId tripIdP with
    | none => (db, .err 400 "invalid trip id")
    | some tripId =>
      match findTrip db tripId uid with
      | none => (db, .err 404 "trip not found or unauthorized")
      | some _ =>
        match sortOrder with
        | .notArr => (db, .err 400 "invalid sortOrder format")
        | .absent => reorderLoop db tripId []
        | .arr l => reorderLoop db tripId l

/-- Embeds the handler of `DELETE /api/trips/:id/cities/:cityId`
(`src/app/routes/cities.js`): ownership and membership checks, then
`DELETE FROM cities WHERE id = ?` only. -/
def deleteCity (db : DB) (session : Option Int)
    (tripIdP cityIdP : Option Int) : DB × Resp :=
  match session with
  | none => (db, .err 401 "not authenticated")
  | some uid =>
    match parseId tripIdP with
    | none => (db, .err 400 "invalid trip id")
    | some tripId =>
      match findTrip db tripId uid with
      | none => (db, .err 404 "trip not found or unauthorized")
      | some _ =>
        match parseId cityIdP with
        | none => (db, .err 400 "invalid city id")
        | some cityId =>
          match findCityInTrip db cityId tripId with
          | none => (db, .err 404 "city not found or unauthorized")
          | some _ =>
            let db' : DB :=
              { db with cities :=
                  db.cities.filter (fun c => !(c.id == cityId)) }
            (db', .okEmpty)

/-- The fixed mode enumeration of `src/app/routes/transportation.js`. -/
def allowedModes : List String :=
  ["flight", "car", "train", "public_transport", "motorbike", "boat",
   "bike", "walk"]

/-- Body of `PUT /api/trips/:tripId/cities/:fromCityId/transportation`:
`toCityId` after `parseInt`, `mode` when supplied as a non-empty string
(`!mode || typeof mode !== "string"` rejects absent, empty and
non-string values, modelled `none`), and raw `notes`. -/
structure TransPutBody where
  toCityId : Option Int
  mode : Option String
  notes : StrVal
deriving DecidableEq, Repr

/-- The `(trip_id, from_city_id, to_city_id)` key on which the
transportation upsert works. -/
def legKey (tripId fromId toId : Int) (l : Leg) : Bool :=
  l.trip_id == tripId && l.from_city_id == fromId && l.to_city_id == toId

/-- Embeds `get("SELECT ... FROM transportation WHERE trip_id = ? AND
from_city_id = ? AND to_city_id = ?")`. -/
def findLeg (db : DB) (tripId fromId toId : Int) : Option Leg :=
  db.transportation.find? (legKey tripId fromId toId)

/-- The upsert block of the transportation PUT handler: mutate the
existing leg row for the key, or insert a new row with a fresh id. -/
def upsertLeg (db : DB) (tripId fromId toId : Int) (mode : String)
    (cleanNotes : Option String) : DB :=
  match findLeg db tripId fromId toId with
  | some existing =>
    { db with transportation := db.transportation.map (fun l =>
        if l.id == existing.id then { l with mode := mode, notes := cleanNotes }
        else l) }
  | none =>
    { db with
      transportation := db.transportation ++
        [{ id := db.nextLegId, trip_id := tripId, from_city_id := fromId,
           to_city_id := toId, mode := mode, notes := cleanNotes }],
      nextLegId := db.nextLegId + 1 }

/-- Notes normalization of the transportation handler:
`typeof notes === "string" ? notes.trim() : null` (trimmed here, unlike
the city handlers). -/
def transNotesParam : StrVal → Option String
  | .str s => some (jsTrim s)
  | _ => none

/-- Embeds the handler of
`PUT /api/trips/:tripId/cities/:fromCityId/transportation`
(`src/app/routes/transportation.js`): request validation in code order
(ids, mode, mode enumeration), trip ownership, the sorted city list,
`findIndex` of the from-city, the next-city check, then the upsert and
the re-fetch of the saved row. -/
def putTransportation (db : DB) (session : Option Int)
    (tripIdP fromCityIdP : Option Int) (body : TransPutBody) : DB × Resp :=
  match session with
  | none => (db, .err 401 "not authenticated")
  | some uid =>
    match parseId tripIdP with
    | none => (db, .err 400 "invalid trip id")
    | some tripId =>
      match parseId fromCityIdP with
      | none => (db, .err 400 "invalid from city id")
      | some fromCityId =>
        match parseId body.toCityId with
        | none => (db, .err 400 "invalid to city id")
        | some toId =>
          match body.mode with
          | none => (db, .err 400 "mode is required")
          | some mode =>
            if !(allowedModes.contains mode) then
              (db, .err 400 "invalid mode")
            else
              match findTrip db tripId uid with
              | none => (db, .err 404 "trip not found or unauthorized")
              | some _ =>
                match jsFindIndex (fun c => c.id == fromCityId)
                    (citiesOfTrip db tripId) with
                | none => (db, .err 404 "from city not found")
                | some fromIdx =>
                  match (citiesOfTrip db tripId)[fromIdx + 1]? with
                  | none =>
                    (db, .err 400
                      "transportation can only be set to the next city in the trip")
                  | some nextCity =>
                    if nextCity.id != toId then
                      (db, .err 400
                        "transportation can only be set to the next city in the trip")
                    else
                      let cleanNotes := transNotesParam body.notes
                      let db' : DB :=
                        match findLeg db tripId fromCityId toId with
                        | some existing =>
                          { db with transportation :=
                              db.transportation.map (fun l =>
                                if l.id == existing.id then
                                  { l with mode := mode, notes := cleanNotes }
                                else l) }
                        | none =>
                          { db with
                            transportation := db.transportation ++
                              [{ id := db.nextLegId, trip_id := tripId,
                                 from_city_id := fromCityId,
                                 to_city_id := toId, mode := mode,
                                 notes := cleanNotes }],
                            nextLegId := db.nextLegId + 1 }
                      (db', .okLeg (findLeg db' tripId fromCityId toId))

/-- Embeds the handler of
`DELETE /api/trips/:tripId/cities/:fromCityId/transportation`
(`src/app/routes/transportation.js`): resolve the successor of the
from-city, then `DELETE FROM transportation WHERE trip_id = ? AND
from_city_id = ? AND to_city_id = ?`. -/
def deleteTransportation (db : DB) (session : Option Int)
    (tripIdP fromCityIdP : Option Int) : DB × Resp :=
  match session with
  | none => (db, .err 401 "not authenticated")
  | some uid =>
    match parseId tripIdP with
    | none => (db, .err 400 "invalid trip id")
    | some tripId =>
      match parseId fromCityIdP with
      | none => (db, .err 400 "invalid from city id")
      | some fromCityId =>
        match findTrip db tripId uid with
        | none => (db, .err 404 "trip not found or unauthorized")
        | some _ =>
          match jsFindIndex (fun c => c.id == fromCityId)
              (citiesOfTrip db tripId) with
          | none => (db, .err 404 "from city not found")
          | some fromIdx =>
            match (citiesOfTrip db tripId)[fromIdx + 1]? with
            | none => (db, .err 400 "no next city for this leg")
            | some nextCity =>
              let db' : DB :=
                { db with transportation :=
                    db.transportation.filter (fun l =>
                      !(l.trip_id == tripId && l.from_city_id == fromCityId &&
                        l.to_city_id == nextCity.id)) }
              (db', .okEmpty)

/-- Validity of one reorder entry against a store: the two per-entry
guards of the reorder loop (the id parses to a nonzero integer and the
city belongs to the trip). -/
def entryValid (db : DB) (tripId : Int) (e : ReorderEntry) : Bool :=
  match parseId e.id with
  | none => false
  | some cid => (findCityInTrip db cid tripId).isSome

/-- The response the reorder loop produces when it stops at an entry:
400 for an unparseable id, 404 for a city outside the trip (and a dummy
success value on entries that do not stop the loop). -/
def entryError (db : DB) (tripId : Int) (e : ReorderEntry) : Resp :=
  match parseId e.id with
  | none => .err 400 "invalid city id"
  | some cid =>
    if (findCityInTrip db cid tripId).isSome then .okEmpty
    else .err 404 "city not found or unauthorized"

/-- The write of one reorder entry, taken in isolation:
`UPDATE cities SET sort_order = ? WHERE id = ?` (identity when the id does
not parse, in which case the loop never reaches the write). -/
def writeEntry (db : DB) (e : ReorderEntry) : DB :=
  match parseId e.id with
  | none => db
  | some cid =>
    { db with cities := db.cities.map (fun c =>
        if c.id == cid then { c with sort_order := e.index } else c) }

/-- Store after applying the writes of a list of entries in list order. -/
def applyWrites (db : DB) (l : List ReorderEntry) : DB :=
  l.foldl writeEntry db

/-- Position of the first occurrence of a value in a list. -/
def idxIn : List Int → Int → Option Nat
  | [], _ => none
  | c :: cs, x => if x = c then some 0 else (idxIn cs x).map (· + 1)

/-- The reorder body for a submitted id list whose `index` fields are the
consecutive positions starting at `n`: `denseFrom 0 [c1,...,ck]` is the
body that the spec's `Reorder(tripId, [c1,...,ck])` abstraction denotes. -/
def denseFrom (n : Nat) : List Int → List ReorderEntry
  | [] => []
  | c :: cs => { id := some c, index := (n : Int) } :: denseFrom (n + 1) cs

/-- Sample store: user 1 owns trip 1 with cities `A` (id 10, sort key 0)
and `B` (id 11, sort key 1); no transportation legs. -/
def dbAB : DB :=
  { trips := [{ id := 1, user_id := 1 }],
    cities :=
      [{ id := 10, name := "A", nights := 1, notes := none, sort_order := 0,
         trip_id := 1 },
       { id := 11, name := "B", nights := 1, notes := none, sort_order := 1,
         trip_id := 1 }],
    transportation := [],
    nextCityId := 20,
    nextLegId := 30 }

/-- Sample store with no trips at all. -/
def dbNoTrip : DB :=
  { trips := [], cities := [], transportation := [],
    nextCityId := 20, nextLegId := 30 }

/-- Sample store in which trip 1 exists but belongs to user 2. -/
def dbForeignTrip : DB :=
  { trips := [{ id := 1, user_id := 2 }], cities := [], transportation := [],
    nextCityId := 20, nextLegId := 30 }

/-- C1: Append on a trip whose maximum sort key is 1 creates the new city
with sort key 0, not 1 + 1 = 2: the `INSERT` in the POST handler names no
`sort_order` column, so the schema default 0 always applies, contrary to
the spec, to the handler's own "appended at the end" comment, and to the
repository tests that expect incrementing sort keys. -/
theorem append_sort_key_stays_zero :
    (postCity dbAB (some 1) (some 1)
        { name := .str "C", nights := .undef, notes := .undef }).2
      = .created (some { id := 20, name := "C", nights := 1, notes := none,
                         sort_order := 0, trip_id := 1 })
    ∧ (∃ c ∈ dbAB.cities, c.sort_order = 1)
    ∧ ((0 : Int) ≠ 1 + 1) := by
  decide

/-- C7 counterexample: updating city 10 with notes `" x "` stores the raw
string `" x "`, not the trimmed `"x"` the claim requires. -/
theorem update_notes_stored_untrimmed_cex :
    ((putCity dbAB (some 1) (some 1) (some 10)
          { name := .undef, nights := .undef, notes := .str " x " }).1.cities.find?
        (fun c => c.id == 10))
      = some { id := 10, name := "A", nights := 1, notes := some " x ",
               sort_order := 0, trip_id := 1 }
    ∧ jsTrim " x " = "x"
    ∧ (some " x " : Option String) ≠ some "x" := by
  decide

/-- C7 (amended): in Update with notes supplied as a string, the stored
notes value is the original untrimmed string, except that a string that
is empty after trimming is stored as null (absence). -/
theorem update_notes_normalization (db : DB) (uid tripId cityId : Int)
    (s : String) (ht : tripId ≠ 0) (hc : cityId ≠ 0)
    (htrip : (findTrip db tripId uid).isSome = true)
    (hcity : (findCityInTrip db cityId tripId).isSome = true) :
    Resp.isErr (putCity db (some uid) (some tripId) (some cityId)
        { name := .undef, nights := .undef, notes := .str s }).2 = false
    ∧ ∀ c' ∈ (putCity db (some uid) (some tripId) (some cityId)
        { name := .undef, nights := .undef, notes := .str s }).1.cities,
        c'.id = cityId →
        c'.notes = if jsTrim s = "" then none else some s := by
  obtain ⟨tr, htr⟩ := Option.isSome_iff_exists.mp htrip
  obtain ⟨cc, hcc⟩ := Option.isSome_iff_exists.mp hcity
  have hput : putCity db (some uid) (some tripId) (some cityId)
      { name := .undef, nights := .undef, notes := .str s }
      = finishPutCity db
          { name := .undef, nights := .undef, notes := .str s } none none
          cityId := by
    unfold putCity putCityNights
    simp [parseId, ht, hc, htr, hcc]
  have hf : putHasFields
      { name := .undef, nights := .undef, notes := .str s } = true := rfl
  rw [hput]
  unfold finishPutCity
  rw [hf]
  simp only [Bool.true_eq_false, if_false]
  constructor
  · rfl
  · intro c' hc' hid
    simp only [List.mem_map] at hc'
    obtain ⟨c0, _, rfl⟩ := hc'
    by_cases h0 : c0.id == cityId
    · simp [h0, applyCityUpdate, cityNotesParam]
    · rw [if_neg h0] at hid
      exact absurd hid (by simpa using h0)

/-- Removing the rows with a given id from a list of city rows with
pairwise-distinct ids removes exactly one row when one matches. -/
lemma length_filter_ne_id (l : List City) (cityId : Int)
    (hn : (l.map City.id).Nodup) (c0 : City) (h0 : c0 ∈ l)
    (hid : c0.id = cityId) :
    (l.filter (fun c => !(c.id == cityId))).length + 1 = l.length := by
  induction l with
  | nil => cases h0
  | cons c cs ih =>
    have hn' : (cs.map City.id).Nodup ∧ c.id ∉ cs.map City.id := by
      rw [List.map_cons] at hn
      exact ⟨(List.nodup_cons.mp hn).2, (List.nodup_cons.mp hn).1⟩
    rcases List.mem_cons.mp h0 with rfl | h0'
    · have hhead : (!(c0.id == cityId)) = false := by simp [hid]
      rw [List.filter_cons, hhead]
      simp only [Bool.false_eq_true, if_false]
      have hall : ∀ x ∈ cs, (!(x.id == cityId)) = true := by
        intro x hx
        have hxne : x.id ≠ cityId := by
          intro he
          exact hn'.2 (List.mem_map.mpr ⟨x, hx, by rw [he, hid]⟩)
        simpa using hxne
      rw [List.filter_eq_self.mpr hall]
      simp
    · have hcne : c.id ≠ cityId := by
        intro he
        exact hn'.2 (List.mem_map.mpr ⟨c0, h0', by rw [hid, ← he]⟩)
      have hhead : (!(c.id == cityId)) = true := by simpa using hcne
      rw [List.filter_cons, hhead]
      simp only [if_true, List.length_cons]
      have := ih hn'.1 h0'
      omega

/-- C5: for a city of an owned trip, Delete removes exactly that one city
row and nothing else: the remaining city rows (hence their sort keys), the
trips table and the transportation table are untouched. -/
theorem delete_city_exact_frame (db : DB) (uid tripId cityId : Int)
    (ht : tripId ≠ 0) (hc : cityId ≠ 0)
    (htrip : (findTrip db tripId uid).isSome = true)
    (hcity : (findCityInTrip db cityId tripId).isSome = true)
    (hnodup : (db.cities.map City.id).Nodup) :
    (deleteCity db (some uid) (some tripId) (some cityId)).2 = .okEmpty
    ∧ (deleteCity db (some uid) (some tripId) (some cityId)).1.cities
        = db.cities.filter (fun c => !(c.id == cityId))
    ∧ (deleteCity db (some uid) (some tripId) (some cityId)).1.transportation
        = db.transportation
    ∧ (deleteCity db (some uid) (some tripId) (some cityId)).1.trips
        = db.trips
    ∧ (deleteCity db (some uid) (some tripId) (some cityId)).1.cities.length
        + 1 = db.cities.length
    ∧ ∀ c ∈ db.cities, c.id ≠ cityId →
        c ∈ (deleteCity db (some uid) (some tripId) (some cityId)).1.cities := by
  obtain ⟨tr, htr⟩ := Option.isSome_iff_exists.mp htrip
  obtain ⟨cc, hcc⟩ := Option.isSome_iff_exists.mp hcity
  have hdel : deleteCity db (some uid) (some tripId) (some cityId)
      = ({ db with cities := db.cities.filter (fun c => !(c.id == cityId)) },
         .okEmpty) := by
    unfold deleteCity
    simp [parseId, ht, hc, htr, hcc]
  have hccid : cc.id = cityId := by
    have := List.find?_some hcc
    simp only [Bool.and_eq_true, beq_iff_eq] at this
    exact this.1
  have hccmem : cc ∈ db.cities := List.mem_of_find?_eq_some hcc
  rw [hdel]
  refine ⟨rfl, rfl, rfl, rfl, ?_, ?_⟩
  · exact length_filter_ne_id db.cities cityId hnodup cc hccmem hccid
  · intro c hcm hne
    exact List.mem_filter.mpr ⟨hcm, by simpa using hne⟩

/-- C5 witness: deleting city 10 from the sample store. -/
theorem delete_city_exact_frame_witness :
    (deleteCity dbAB (some 1) (some 1) (some 10)).2 = .okEmpty
    ∧ (deleteCity dbAB (some 1) (some 1) (some 10)).1.cities
        = dbAB.cities.filter (fun c => !(c.id == 10))
    ∧ (deleteCity dbAB (some 1) (some 1) (some 10)).1.transportation
        = dbAB.transportation
    ∧ (deleteCity dbAB (some 1) (some 1) (some 10)).1.trips = dbAB.trips
    ∧ (deleteCity dbAB (some 1) (some 1) (some 10)).1.cities.length + 1
        = dbAB.cities.length
    ∧ ∀ c ∈ dbAB.cities, c.id ≠ 10 →
        c ∈ (deleteCity dbAB (some 1) (some 1) (some 10)).1.cities :=
  delete_city_exact_frame dbAB 1 1 10 (by decide) (by decide) (by decide)
    (by decide) (by decide)

/-- C7 witness: the amended normalization applied to the sample store. -/
theorem update_notes_normalization_witness :
    Resp.isErr (putCity dbAB (some 1) (some 1) (some 10)
        { name := .undef, nights := .undef, notes := .str " x " }).2 = false
    ∧ ∀ c' ∈ (putCity dbAB (some 1) (some 1) (some 10)
        { name := .undef, nights := .undef, notes := .str " x " }).1.cities,
        c'.id = 10 →
        c'.notes = if jsTrim " x " = "" then none else some " x " :=
  update_notes_normalization dbAB 1 1 10 " x " (by decide) (by decide)
    (by decide) (by decide)

/-- A sort-order write preserves every row's `id` and `trip_id`, so it
never changes which rows `findCityInTrip` can see. -/
lemma findCityInTrip_writeEntry (db : DB) (e : ReorderEntry)
    (cid tripId : Int) :
    (findCityInTrip (writeEntry db e) cid tripId).isSome
      = (findCityInTrip db cid tripId).isSome := by
  unfold writeEntry
  cases hp : parseId e.id with
  | none => rfl
  | some cid2 =>
    show (findCityInTrip
        { db with cities := db.cities.map _ } cid tripId).isSome = _
    unfold findCityInTrip
    rw [List.find?_map]
    have hcomp : ((fun c : City => c.id == cid && c.trip_id == tripId) ∘
        (fun c : City =>
          if c.id == cid2 then { c with sort_order := e.index } else c))
        = (fun c : City => c.id == cid && c.trip_id == tripId) := by
      funext c
      by_cases h : c.id = cid2 <;> simp [h]
    rw [hcomp]
    cases db.cities.find? (fun c => c.id == cid && c.trip_id == tripId) <;> rfl

/-- Entry validity is invariant under the write of another entry. -/
lemma entryValid_writeEntry (db : DB) (tripId : Int) (e e' : ReorderEntry) :
    entryValid (writeEntry db e') tripId e = entryValid db tripId e := by
  unfold entryValid
  cases hp : parseId e.id with
  | none => rfl
  | some cid => simp only [findCityInTrip_writeEntry]

/-- An entry's stopping response is invariant under the write of another
entry. -/
lemma entryError_writeEntry (db : DB) (tripId : Int) (e e' : ReorderEntry) :
    entryError (writeEntry db e') tripId e = entryError db tripId e := by
  unfold entryError
  cases hp : parseId e.id with
  | none => rfl
  | some cid => simp only [findCityInTrip_writeEntry]

/-- When every entry is valid in the starting store, the reorder loop
applies all the writes in list order and succeeds. -/
lemma reorderLoop_all_valid (tripId : Int) (l : List ReorderEntry) :
    ∀ db : DB, (∀ e ∈ l, entryValid db tripId e = true) →
      reorderLoop db tripId l = (applyWrites db l, .okEmpty) := by
  induction l with
  | nil => intro db _; rfl
  | cons e rest ih =>
    intro db hall
    have he := hall e (List.mem_cons_self e rest)
    unfold entryValid at he
    cases hp : parseId e.id with
    | none => rw [hp] at he; cases he
    | some cid =>
      rw [hp] at he
      obtain ⟨c, hcf⟩ := Option.isSome_iff_exists.mp he
      have hwe : ({ db with cities := db.cities.map (fun c =>
          if c.id == cid then { c with sort_order := e.index } else c) } : DB)
          = writeEntry db e := by
        unfold writeEntry; rw [hp]
      simp only [reorderLoop, hp, hcf, hwe]
      rw [ih (writeEntry db e) (fun e' he' => by
        rw [entryValid_writeEntry]
        exact hall e' (List.mem_cons_of_mem _ he'))]
      rfl

/-- When the first `k` entries are valid and entry `k` is not, the loop
stops at entry `k` with its error, having applied exactly the writes of
the first `k` entries, in list order. -/
lemma reorderLoop_first_invalid (tripId : Int) (l : List ReorderEntry) :
    ∀ (db : DB) (k : Nat) (hk : k < l.length),
      (∀ j (hj : j < k),
        entryValid db tripId (l.get ⟨j, Nat.lt_trans hj hk⟩) = true) →
      entryValid db tripId (l.get ⟨k, hk⟩) = false →
      reorderLoop db tripId l
        = (applyWrites db (l.take k), entryError db tripId (l.get ⟨k, hk⟩)) := by
  induction l with
  | nil => intro db k hk; cases hk
  | cons e rest ih =>
    intro db k hk hvalid hinv
    cases k with
    | zero =>
      have hinv0 : entryValid db tripId e = false := hinv
      cases hp : parseId e.id with
      | none =>
        simp only [reorderLoop, hp]
        simp [applyWrites, entryError, hp]
      | some cid =>
        have hiso : (findCityInTrip db cid tripId).isSome = false := by
          have hev : entryValid db tripId e
              = (findCityInTrip db cid tripId).isSome := by
            simp [entryValid, hp]
          rw [← hev]
          exact hinv0
        have hnone : findCityInTrip db cid tripId = none :=
          Option.not_isSome_iff_eq_none.mp (by simp [hiso])
        simp only [reorderLoop, hp, hnone]
        simp [applyWrites, entryError, hp, hnone]
    | succ k' =>
      have he : entryValid db tripId e = true := hvalid 0 (Nat.succ_pos k')
      unfold entryValid at he
      cases hp : parseId e.id with
      | none => rw [hp] at he; cases he
      | some cid =>
        rw [hp] at he
        obtain ⟨c, hcf⟩ := Option.isSome_iff_exists.mp he
        have hwe : ({ db with cities := db.cities.map (fun c =>
            if c.id == cid then { c with sort_order := e.index } else c) } : DB)
            = writeEntry db e := by
          unfold writeEntry; rw [hp]
        simp only [reorderLoop, hp, hcf, hwe]
        have hk' : k' < rest.length := Nat.lt_of_succ_lt_succ hk
        rw [ih (writeEntry db e) k' hk'
          (fun j hj => by
            rw [entryValid_writeEntry]
            exact hvalid (j + 1) (Nat.succ_lt_succ hj))
          (by rw [entryValid_writeEntry]; exact hinv)]
        rw [entryError_writeEntry]
        rfl

/-- With a valid trip id and an owned trip, the reorder handler reduces to
its per-entry loop. -/
lemma reorderCities_to_loop (db : DB) (uid tripId : Int)
    (l : List ReorderEntry) (ht : tripId ≠ 0)
    (htrip : (findTrip db tripId uid).isSome = true) :
    reorderCities db (some uid) (some tripId) (.arr l)
      = reorderLoop db tripId l := by
  obtain ⟨tr, htr⟩ := Option.isSome_iff_exists.mp htrip
  unfold reorderCities
  simp [parseId, ht, htr]

/-- C9: Reorder applies its sort-key writes sequentially in list order
with no multi-row atomicity: when all entries are valid the store is the
fold of the per-entry writes, and when entry `k` is the first invalid one
the call stops with that entry's error, the writes of entries `0..k-1`
already applied and the remaining entries untouched. -/
theorem reorder_sequential_prefix_writes (db : DB) (uid tripId : Int)
    (l : List ReorderEntry) (ht : tripId ≠ 0)
    (htrip : (findTrip db tripId uid).isSome = true) :
    ((∀ e ∈ l, entryValid db tripId e = true) →
      reorderCities db (some uid) (some tripId) (.arr l)
        = (applyWrites db l, .okEmpty))
    ∧ ∀ k, (hk : k < l.length) →
        (∀ j, (hj : j < k) →
          entryValid db tripId (l.get ⟨j, Nat.lt_trans hj hk⟩) = true) →
        entryValid db tripId (l.get ⟨k, hk⟩) = false →
        reorderCities db (some uid) (some tripId) (.arr l)
          = (applyWrites db (l.take k),
             entryError db tripId (l.get ⟨k, hk⟩)) := by
  constructor
  · intro hall
    rw [reorderCities_to_loop db uid tripId l ht htrip]
    exact reorderLoop_all_valid tripId l db hall
  · intro k hk hvalid hinv
    rw [reorderCities_to_loop db uid tripId l ht htrip]
    exact reorderLoop_first_invalid tripId l db k hk hvalid hinv

/-- C9 witness: on the sample store, a reorder whose second entry names a
foreign city stops there with 404, the first entry's write applied. -/
theorem reorder_sequential_prefix_writes_witness :
    reorderCities dbAB (some 1) (some 1)
        (.arr [{ id := some 10, index := 5 }, { id := some 99, index := 0 }])
      = (applyWrites dbAB
          ([{ id := some 10, index := 5 },
            { id := some 99, index := 0 }].take 1),
         entryError dbAB 1
          ([{ id := some 10, index := 5 },
            { id := some 99, index := 0 }].get ⟨1, by decide⟩)) :=
  (reorder_sequential_prefix_writes dbAB 1 1
      [{ id := some 10, index := 5 }, { id := some 99, index := 0 }]
      (by decide) (by decide)).2 1 (by decide)
    (fun j hj => by
      have h0 : j = 0 := by omega
      subst h0
      show entryValid dbAB 1 ({ id := some 10, index := 5 } : ReorderEntry)
          = true
      decide)
    (by decide)

/-- The POST city handler leaves the store untouched on any error. -/
lemma postCity_err_frame (db : DB) (session tripIdP : Option Int)
    (body : CityPostBody) :
    Resp.isErr (postCity db session tripIdP body).2 = true →
    (postCity db session tripIdP body).1 = db := by
  unfold postCity
  repeat' split
  all_goals intro h
  all_goals first | rfl | simp [Resp.isErr] at h

/-- The PUT city handler leaves the store untouched on any error. -/
lemma putCity_err_frame (db : DB) (session tripIdP cityIdP : Option Int)
    (body : CityPutBody) :
    Resp.isErr (putCity db session tripIdP cityIdP body).2 = true →
    (putCity db session tripIdP cityIdP body).1 = db := by
  unfold putCity putCityNights finishPutCity
  repeat' split
  all_goals intro h
  all_goals first | rfl | simp [Resp.isErr] at h

/-- The DELETE city handler leaves the store untouched on any error. -/
lemma deleteCity_err_frame (db : DB) (session tripIdP cityIdP : Option Int) :
    Resp.isErr (deleteCity db session tripIdP cityIdP).2 = true →
    (deleteCity db session tripIdP cityIdP).1 = db := by
  unfold deleteCity
  repeat' split
  all_goals intro h
  all_goals first | rfl | simp [Resp.isErr] at h

/-- The transportation upsert handler leaves the store untouched on any
error. -/
lemma putTransportation_err_frame (db : DB)
    (session tripIdP fromCityIdP : Option Int) (body : TransPutBody) :
    Resp.isErr (putTransportation db session tripIdP fromCityIdP body).2
      = true →
    (putTransportation db session tripIdP fromCityIdP body).1 = db := by
  unfold putTransportation
  repeat' split
  all_goals intro h
  all_goals first | rfl | simp [Resp.isErr] at h

/-- The transportation delete handler leaves the store untouched on any
error. -/
lemma deleteTransportation_err_frame (db : DB)
    (session tripIdP fromCityIdP : Option Int) :
    Resp.isErr (deleteTransportation db session tripIdP fromCityIdP).2
      = true →
    (deleteTransportation db session tripIdP fromCityIdP).1 = db := by
  unfold deleteTransportation
  repeat' split
  all_goals intro h
  all_goals first | rfl | simp [Resp.isErr] at h

/-- C10 counterexample: a reorder whose second entry names a city outside
the trip fails, yet the first entry's sort-key write has already been
applied, so the stored rows are not as before the request. -/
theorem reorder_partial_write_cex :
    Resp.isErr (reorderCities dbAB (some 1) (some 1)
        (.arr [{ id := some 10, index := 5 },
               { id := some 99, index := 0 }])).2 = true
    ∧ (reorderCities dbAB (some 1) (some 1)
        (.arr [{ id := some 10, index := 5 },
               { id := some 99, index := 0 }])).1 ≠ dbAB := by
  decide

/-- C10 (amended): for the five non-bulk city/leg operations, every
failing request leaves the stored rows exactly as before (all checks
precede the single write); for Reorder the checks before the per-entry
loop (session, trip id, ownership, array shape) also leave the store
untouched, while a per-entry failure keeps only the earlier entries'
writes (see the sequential-prefix theorem). -/
theorem no_write_on_failed_checks (db : DB) :
    (∀ (session tripIdP : Option Int) (body : CityPostBody),
      Resp.isErr (postCity db session tripIdP body).2 = true →
      (postCity db session tripIdP body).1 = db)
    ∧ (∀ (session tripIdP cityIdP : Option Int) (body : CityPutBody),
      Resp.isErr (putCity db session tripIdP cityIdP body).2 = true →
      (putCity db session tripIdP cityIdP body).1 = db)
    ∧ (∀ (session tripIdP cityIdP : Option Int),
      Resp.isErr (deleteCity db session tripIdP cityIdP).2 = true →
      (deleteCity db session tripIdP cityIdP).1 = db)
    ∧ (∀ (session tripIdP fromCityIdP : Option Int) (body : TransPutBody),
      Resp.isErr (putTransportation db session tripIdP fromCityIdP body).2
        = true →
      (putTransportation db session tripIdP fromCityIdP body).1 = db)
    ∧ (∀ (session tripIdP fromCityIdP : Option Int),
      Resp.isErr (deleteTransportation db session tripIdP fromCityIdP).2
        = true →
      (deleteTransportation db session tripIdP fromCityIdP).1 = db)
    ∧ (∀ (tripIdP : Option Int) (sov : SortOrderVal),
      (reorderCities db none tripIdP sov).1 = db)
    ∧ (∀ (session tripIdP : Option Int) (sov : SortOrderVal),
      parseId tripIdP = none → (reorderCities db session tripIdP sov).1 = db)
    ∧ (∀ (uid tripId : Int) (sov : SortOrderVal),
      findTrip db tripId uid = none →
      (reorderCities db (some uid) (some tripId) sov).1 = db)
    ∧ (∀ (session tripIdP : Option Int),
      (reorderCities db session tripIdP .notArr).1 = db) := by
  refine ⟨postCity_err_frame db, putCity_err_frame db, deleteCity_err_frame db,
    putTransportation_err_frame db, deleteTransportation_err_frame db,
    ?_, ?_, ?_, ?_⟩
  · intro tripIdP sov; rfl
  · intro session tripIdP sov hp
    cases session with
    | none => rfl
    | some uid => simp [reorderCities, hp]
  · intro uid tripId sov hfind
    by_cases h0 : tripId = 0
    · simp [reorderCities, parseId, h0]
    · simp [reorderCities, parseId, h0, hfind]
  · intro session tripIdP
    unfold reorderCities
    repeat' split
    all_goals first | rfl | simp_all

/-- C10 witness: an unauthenticated POST leaves the sample store as it
was. -/
theorem no_write_on_failed_checks_witness :
    (postCity dbAB none none
        { name := .undef, nights := .undef, notes := .undef }).1 = dbAB :=
  (no_write_on_failed_checks dbAB).1 none none
    { name := .undef, nights := .undef, notes := .undef } (by decide)

/-- A reorder list in which every id parses but some city is foreign to
the trip makes the loop stop with the 404 membership error. -/
lemma reorderLoop_foreign_404 (tripId : Int) (l : List ReorderEntry) :
    ∀ db : DB, (∀ e ∈ l, parseId e.id ≠ none) →
      (∃ e ∈ l, entryValid db tripId e = false) →
      (reorderLoop db tripId l).2
        = .err 404 "city not found or unauthorized" := by
  induction l with
  | nil =>
    intro db _ hbad
    obtain ⟨e, he, _⟩ := hbad
    cases he
  | cons e rest ih =>
    intro db hparse hbad
    cases hv : entryValid db tripId e with
    | false =>
      have hp : parseId e.id ≠ none := hparse e (List.mem_cons_self e rest)
      cases hpp : parseId e.id with
      | none => exact absurd hpp hp
      | some cid =>
        have hiso : (findCityInTrip db cid tripId).isSome = false := by
          have hev : entryValid db tripId e
              = (findCityInTrip db cid tripId).isSome := by
            simp [entryValid, hpp]
          rw [← hev]; exact hv
        have hnone : findCityInTrip db cid tripId = none :=
          Option.not_isSome_iff_eq_none.mp (by simp [hiso])
        simp [reorderLoop, hpp, hnone]
    | true =>
      obtain ⟨e', he', hv'⟩ := hbad
      rcases List.mem_cons.mp he' with rfl | hrest
      · rw [hv] at hv'; cases hv'
      · cases hpp : parseId e.id with
        | none =>
          have := hv
          simp [entryValid, hpp] at this
        | some cid =>
          have hiso : (findCityInTrip db cid tripId).isSome = true := by
            have hev : entryValid db tripId e
                = (findCityInTrip db cid tripId).isSome := by
              simp [entryValid, hpp]
            rw [← hev]; exact hv
          obtain ⟨c, hcf⟩ := Option.isSome_iff_exists.mp hiso
          have hwe : ({ db with cities := db.cities.map (fun c =>
              if c.id == cid then { c with sort_order := e.index } else c) } : DB)
              = writeEntry db e := by
            unfold writeEntry; rw [hpp]
          simp only [reorderLoop, hpp, hcf, hwe]
          exact ih (writeEntry db e)
            (fun e2 h2 => hparse e2 (List.mem_cons_of_mem _ h2))
            ⟨e', hrest, by rw [entryValid_writeEntry]; exact hv'⟩

/-- C6 counterexample: a reorder entry naming a city that does not belong
to the trip fails with the 404 not-found response, which is not a
ValidationError (400). -/
theorem reorder_foreign_id_cex :
    (reorderCities dbAB (some 1) (some 1)
        (.arr [{ id := some 99, index := 0 }])).2
      = .err 404 "city not found or unauthorized"
    ∧ Resp.isValidationError (reorderCities dbAB (some 1) (some 1)
        (.arr [{ id := some 99, index := 0 }])).2 = false := by
  decide

/-- C6 (amended): Reorder fails with a NotFoundError (HTTP 404, the same
"city not found or unauthorized" failure as for a missing city) if any
submitted city id, all parsing as nonzero integers, does not belong to
the trip. -/
theorem reorder_foreign_id_not_found (db : DB) (uid tripId : Int)
    (l : List ReorderEntry) (ht : tripId ≠ 0)
    (htrip : (findTrip db tripId uid).isSome = true)
    (hparse : ∀ e ∈ l, parseId e.id ≠ none)
    (hbad : ∃ e ∈ l, entryValid db tripId e = false) :
    (reorderCities db (some uid) (some tripId) (.arr l)).2
      = .err 404 "city not found or unauthorized"
    ∧ Resp.isNotFoundError
        (reorderCities db (some uid) (some tripId) (.arr l)).2 = true := by
  have hloop := reorderLoop_foreign_404 tripId l db hparse hbad
  rw [reorderCities_to_loop db uid tripId l ht htrip]
  exact ⟨hloop, by rw [hloop]; rfl⟩

/-- C6 witness: the foreign-city reorder on the sample store. -/
theorem reorder_foreign_id_not_found_witness :
    (reorderCities dbAB (some 1) (some 1)
        (.arr [{ id := some 99, index := 0 }])).2
      = .err 404 "city not found or unauthorized"
    ∧ Resp.isNotFoundError (reorderCities dbAB (some 1) (some 1)
        (.arr [{ id := some 99, index := 0 }])).2 = true :=
  reorder_foreign_id_not_found dbAB 1 1 [{ id := some 99, index := 0 }]
    (by decide) (by decide) (by decide) (by decide)

/-- When every request check passes and the target is the successor city,
the transportation PUT handler reduces to its upsert block followed by the
re-fetch of the saved row. -/
lemma putTransportation_checks_pass (db : DB) (uid tripId fromId toId : Int)
    (mode : String) (nts : StrVal) (i : Nat) (nc : City)
    (ht : tripId ≠ 0) (hf : fromId ≠ 0) (hto : toId ≠ 0)
    (hmode : allowedModes.contains mode = true)
    (htrip : (findTrip db tripId uid).isSome = true)
    (hJ : jsFindIndex (fun c => c.id == fromId) (citiesOfTrip db tripId)
      = some i)
    (hN : (citiesOfTrip db tripId)[i + 1]? = some nc)
    (hnc : nc.id = toId) :
    putTransportation db (some uid) (some tripId) (some fromId)
        { toCityId := some toId, mode := some mode, notes := nts }
      = (upsertLeg db tripId fromId toId mode (transNotesParam nts),
         .okLeg (findLeg (upsertLeg db tripId fromId toId mode
            (transNotesParam nts)) tripId fromId toId)) := by
  obtain ⟨tr, htr⟩ := Option.isSome_iff_exists.mp htrip
  have hbne : (nc.id != toId) = false := by simp [hnc]
  have hpt : parseId (some tripId) = some tripId := by simp [parseId, ht]
  have hpf : parseId (some fromId) = some fromId := by simp [parseId, hf]
  have hpto : parseId (some toId) = some toId := by simp [parseId, hto]
  have hmem : mode ∈ allowedModes := by simpa using hmode
  unfold putTransportation upsertLeg
  cases hleg : findLeg db tripId fromId toId with
  | some ex => simp [hpt, hpf, hpto, hmem, htr, hJ, hN, hbne, hleg]
  | none => simp [hpt, hpf, hpto, hmem, htr, hJ, hN, hbne, hleg]

/-- C3 counterexample: with a valid mode and an owned trip, an upsert
whose from-city does not belong to the trip (so `nextCityOf` returns
none, which differs from the requested `toCityId`) fails with the 404
NotFoundError "from city not found", not with a ValidationError. -/
theorem upsert_absent_from_city_cex :
    nextCityOf dbAB 1 99 = none
    ∧ (putTransportation dbAB (some 1) (some 1) (some 99)
        { toCityId := some 10, mode := some "train", notes := .undef }).2
      = .err 404 "from city not found"
    ∧ Resp.isValidationError (putTransportation dbAB (some 1) (some 1)
        (some 99)
        { toCityId := some 10, mode := some "train", notes := .undef }).2
      = false := by
  decide

/-- C3 (amended): for an owned trip, whenever the requested `toCityId`
differs from what `nextCityOf(tripId, fromCityId)` returns, Upsert fails
and writes nothing; the failure is a ValidationError except when the
from-city itself is not in the trip, where it is the NotFoundError
"from city not found" (an invalid mode or unparseable toCityId also
yields a ValidationError without a write). -/
theorem upsert_non_adjacent_rejected (db : DB) (uid tripId fromCityId : Int)
    (body : TransPutBody) (ht : tripId ≠ 0) (hf : fromCityId ≠ 0)
    (htrip : (findTrip db tripId uid).isSome = true)
    (hmm : (nextCityOf db tripId fromCityId).map City.id
      ≠ parseId body.toCityId) :
    Resp.isErr (putTransportation db (some uid) (some tripId)
        (some fromCityId) body).2 = true
    ∧ (putTransportation db (some uid) (some tripId)
        (some fromCityId) body).1 = db
    ∧ (Resp.isValidationError (putTransportation db (some uid) (some tripId)
          (some fromCityId) body).2 = true
       ∨ (Resp.isNotFoundError (putTransportation db (some uid) (some tripId)
            (some fromCityId) body).2 = true
          ∧ jsFindIndex (fun c => c.id == fromCityId)
              (citiesOfTrip db tripId) = none)) := by
  obtain ⟨tr, htr⟩ := Option.isSome_iff_exists.mp htrip
  have hpt : parseId (some tripId) = some tripId := by simp [parseId, ht]
  have hpf : parseId (some fromCityId) = some fromCityId := by
    simp [parseId, hf]
  cases hto : parseId body.toCityId with
  | none =>
    have hred : putTransportation db (some uid) (some tripId)
        (some fromCityId) body = (db, .err 400 "invalid to city id") := by
      unfold putTransportation
      simp [hpt, hpf, hto]
    rw [hred]
    exact ⟨rfl, rfl, Or.inl rfl⟩
  | some toId =>
    cases hmode : body.mode with
    | none =>
      have hred : putTransportation db (some uid) (some tripId)
          (some fromCityId) body = (db, .err 400 "mode is required") := by
        unfold putTransportation
        simp [hpt, hpf, hto, hmode]
      rw [hred]
      exact ⟨rfl, rfl, Or.inl rfl⟩
    | some mode =>
      by_cases hmok : allowedModes.contains mode = true
      · have hmem : mode ∈ allowedModes := by simpa using hmok
        cases hJ : jsFindIndex (fun c => c.id == fromCityId)
            (citiesOfTrip db tripId) with
        | none =>
          have hred : putTransportation db (some uid) (some tripId)
              (some fromCityId) body
              = (db, .err 404 "from city not found") := by
            unfold putTransportation
            simp [hpt, hpf, hto, hmode, hmem, htr, hJ]
          rw [hred]
          exact ⟨rfl, rfl, Or.inr ⟨rfl, rfl⟩⟩
        | some fromIdx =>
          cases hN : (citiesOfTrip db tripId)[fromIdx + 1]? with
          | none =>
            have hred : putTransportation db (some uid) (some tripId)
                (some fromCityId) body
                = (db, .err 400
                    "transportation can only be set to the next city in the trip") := by
              unfold putTransportation
              simp [hpt, hpf, hto, hmode, hmem, htr, hJ, hN]
            rw [hred]
            exact ⟨rfl, rfl, Or.inl rfl⟩
          | some nc =>
            have hncid : nc.id ≠ toId := by
              intro he
              apply hmm
              rw [hto]
              unfold nextCityOf
              rw [hJ]
              simp [hN, he]
            have hbne : (nc.id != toId) = true := by simpa using hncid
            have hred : putTransportation db (some uid) (some tripId)
                (some fromCityId) body
                = (db, .err 400
                    "transportation can only be set to the next city in the trip") := by
              unfold putTransportation
              simp [hpt, hpf, hto, hmode, hmem, htr, hJ, hN, hbne]
            rw [hred]
            exact ⟨rfl, rfl, Or.inl rfl⟩
      · have hnmem : ¬ (mode ∈ allowedModes) := by simpa using hmok
        have hred : putTransportation db (some uid) (some tripId)
            (some fromCityId) body = (db, .err 400 "invalid mode") := by
          unfold putTransportation
          simp [hpt, hpf, hto, hmode, hnmem]
        rw [hred]
        exact ⟨rfl, rfl, Or.inl rfl⟩

/-- C3 witness: requesting a leg from city 10 back to city 10 itself
(whose successor is city 11) on the sample store. -/
theorem upsert_non_adjacent_rejected_witness :
    Resp.isErr (putTransportation dbAB (some 1) (some 1) (some 10)
        { toCityId := some 10, mode := some "train", notes := .undef }).2
      = true
    ∧ (putTransportation dbAB (some 1) (some 1) (some 10)
        { toCityId := some 10, mode := some "train", notes := .undef }).1
      = dbAB
    ∧ (Resp.isValidationError (putTransportation dbAB (some 1) (some 1)
          (some 10)
          { toCityId := some 10, mode := some "train", notes := .undef }).2
        = true
       ∨ (Resp.isNotFoundError (putTransportation dbAB (some 1) (some 1)
            (some 10)
            { toCityId := some 10, mode := some "train", notes := .undef }).2
          = true
          ∧ jsFindIndex (fun c => c.id == (10 : Int))
              (citiesOfTrip dbAB 1) = none)) :=
  upsert_non_adjacent_rejected dbAB 1 1 10
    { toCityId := some 10, mode := some "train", notes := .undef }
    (by decide) (by decide) (by decide) (by decide)

/-- The upsert block never touches the cities table. -/
lemma upsertLeg_cities (db : DB) (t f toC : Int) (m : String)
    (n : Option String) : (upsertLeg db t f toC m n).cities = db.cities := by
  unfold upsertLeg
  cases findLeg db t f toC <;> rfl

/-- The upsert block never touches the trips table. -/
lemma upsertLeg_trips (db : DB) (t f toC : Int) (m : String)
    (n : Option String) : (upsertLeg db t f toC m n).trips = db.trips := by
  unfold upsertLeg
  cases findLeg db t f toC <;> rfl

/-- Mutating a leg's mode and notes never changes its
`(trip, from, to)` key. -/
lemma legKey_update (t f toC : Int) (m : String) (n : Option String)
    (eid : Int) (l : Leg) :
    legKey t f toC
      (if l.id == eid then { l with mode := m, notes := n } else l)
      = legKey t f toC l := by
  by_cases h : l.id = eid <;> simp [legKey, h]

/-- Starting from a store with at most one leg row for the key, the
upsert block leaves exactly one leg row for the key. -/
lemma countP_upsertLeg (db : DB) (t f toC : Int) (m : String)
    (n : Option String)
    (hkey : db.transportation.countP (legKey t f toC) ≤ 1) :
    (upsertLeg db t f toC m n).transportation.countP (legKey t f toC)
      = 1 := by
  cases hleg : findLeg db t f toC with
  | some ex =>
    have hleg' : db.transportation.find? (legKey t f toC) = some ex := hleg
    have hred : upsertLeg db t f toC m n
        = { db with transportation := db.transportation.map (fun l =>
            if l.id == ex.id then { l with mode := m, notes := n }
            else l) } := by
      unfold upsertLeg
      rw [hleg]
    rw [hred]
    show (db.transportation.map _).countP _ = 1
    rw [List.countP_map]
    have hcomp : (legKey t f toC ∘ fun l : Leg =>
        if l.id == ex.id then { l with mode := m, notes := n } else l)
        = legKey t f toC := by
      funext l
      exact legKey_update t f toC m n ex.id l
    rw [hcomp]
    have h1 : 0 < db.transportation.countP (legKey t f toC) :=
      List.countP_pos_iff.mpr
        ⟨ex, List.mem_of_find?_eq_some hleg', List.find?_some hleg'⟩
    omega
  | none =>
    have hleg' : db.transportation.find? (legKey t f toC) = none := hleg
    have hred : upsertLeg db t f toC m n
        = { db with
            transportation := db.transportation ++
              [{ id := db.nextLegId, trip_id := t, from_city_id := f,
                 to_city_id := toC, mode := m, notes := n }],
            nextLegId := db.nextLegId + 1 } := by
      unfold upsertLeg
      rw [hleg]
    rw [hred]
    show (db.transportation ++ _).countP _ = 1
    rw [List.countP_append]
    have h0 : db.transportation.countP (legKey t f toC) = 0 :=
      List.countP_eq_zero.mpr (List.find?_eq_none.mp hleg')
    rw [h0]
    simp [legKey]

/-- After the upsert block, the key's row exists and carries exactly the
requested mode and notes. -/
lemma findLeg_upsertLeg (db : DB) (t f toC : Int) (m : String)
    (n : Option String) :
    ∃ lg, findLeg (upsertLeg db t f toC m n) t f toC = some lg
      ∧ lg.mode = m ∧ lg.notes = n := by
  cases hleg : findLeg db t f toC with
  | some ex =>
    have hleg' : db.transportation.find? (legKey t f toC) = some ex := hleg
    have hred : upsertLeg db t f toC m n
        = { db with transportation := db.transportation.map (fun l =>
            if l.id == ex.id then { l with mode := m, notes := n }
            else l) } := by
      unfold upsertLeg
      rw [hleg]
    refine ⟨{ ex with mode := m, notes := n }, ?_, rfl, rfl⟩
    rw [hred]
    unfold findLeg
    show (db.transportation.map _).find? _ = _
    rw [List.find?_map]
    have hcomp : (legKey t f toC ∘ fun l : Leg =>
        if l.id == ex.id then { l with mode := m, notes := n } else l)
        = legKey t f toC := by
      funext l
      exact legKey_update t f toC m n ex.id l
    rw [hcomp, hleg']
    simp
  | none =>
    have hleg' : db.transportation.find? (legKey t f toC) = none := hleg
    have hred : upsertLeg db t f toC m n
        = { db with
            transportation := db.transportation ++
              [{ id := db.nextLegId, trip_id := t, from_city_id := f,
                 to_city_id := toC, mode := m, notes := n }],
            nextLegId := db.nextLegId + 1 } := by
      unfold upsertLeg
      rw [hleg]
    refine ⟨{ id := db.nextLegId, trip_id := t, from_city_id := f,
              to_city_id := toC, mode := m, notes := n }, ?_, rfl, rfl⟩
    rw [hred]
    unfold findLeg
    show (db.transportation ++ _).find? _ = _
    rw [List.find?_append, hleg']
    simp [legKey]

/-- When the key's row already exists, the upsert block mutates it in
place and inserts nothing. -/
lemma upsertLeg_length_some (db : DB) (t f toC : Int) (m : String)
    (n : Option String) (ex : Leg) (hleg : findLeg db t f toC = some ex) :
    (upsertLeg db t f toC m n).transportation.length
      = db.transportation.length := by
  unfold upsertLeg
  rw [hleg]
  simp

/-- C4: Upsert is idempotent.  For a valid adjacent pair on an owned trip
and a store holding at most one leg row for the key, the first call
reduces to the upsert block, the second call (on the resulting store)
reduces to the upsert block again, and afterwards exactly one leg row for
(trip, from, to) exists, carrying the requested mode and notes; the
second call mutated the existing row rather than inserting another, so
the leg table's length is unchanged by it. -/
theorem upsert_idempotent (db : DB) (uid tripId fromId toId : Int)
    (mode : String) (nts : StrVal) (i : Nat) (nc : City)
    (ht : tripId ≠ 0) (hf : fromId ≠ 0) (hto : toId ≠ 0)
    (hmode : allowedModes.contains mode = true)
    (htrip : (findTrip db tripId uid).isSome = true)
    (hJ : jsFindIndex (fun c => c.id == fromId) (citiesOfTrip db tripId)
      = some i)
    (hN : (citiesOfTrip db tripId)[i + 1]? = some nc)
    (hnc : nc.id = toId)
    (hkey : db.transportation.countP (legKey tripId fromId toId) ≤ 1) :
    (putTransportation db (some uid) (some tripId) (some fromId)
        { toCityId := some toId, mode := some mode, notes := nts }).1
      = upsertLeg db tripId fromId toId mode (transNotesParam nts)
    ∧ (putTransportation
        (upsertLeg db tripId fromId toId mode (transNotesParam nts))
        (some uid) (some tripId) (some fromId)
        { toCityId := some toId, mode := some mode, notes := nts }).1
      = upsertLeg (upsertLeg db tripId fromId toId mode (transNotesParam nts))
          tripId fromId toId mode (transNotesParam nts)
    ∧ (upsertLeg (upsertLeg db tripId fromId toId mode (transNotesParam nts))
        tripId fromId toId mode
        (transNotesParam nts)).transportation.countP
          (legKey tripId fromId toId) = 1
    ∧ (∃ lg, findLeg
        (upsertLeg (upsertLeg db tripId fromId toId mode (transNotesParam nts))
          tripId fromId toId mode (transNotesParam nts))
        tripId fromId toId = some lg
        ∧ lg.mode = mode ∧ lg.notes = transNotesParam nts)
    ∧ (upsertLeg (upsertLeg db tripId fromId toId mode (transNotesParam nts))
        tripId fromId toId mode
        (transNotesParam nts)).transportation.length
      = (upsertLeg db tripId fromId toId mode
          (transNotesParam nts)).transportation.length := by
  have h1 := putTransportation_checks_pass db uid tripId fromId toId mode nts
    i nc ht hf hto hmode htrip hJ hN hnc
  have htr2 : (findTrip
      (upsertLeg db tripId fromId toId mode (transNotesParam nts))
      tripId uid).isSome = true := by
    unfold findTrip
    rw [upsertLeg_trips]
    exact htrip
  have hcot : citiesOfTrip
      (upsertLeg db tripId fromId toId mode (transNotesParam nts)) tripId
      = citiesOfTrip db tripId := by
    unfold citiesOfTrip
    rw [upsertLeg_cities]
  have h2 := putTransportation_checks_pass
    (upsertLeg db tripId fromId toId mode (transNotesParam nts)) uid tripId
    fromId toId mode nts i nc ht hf hto hmode htr2
    (by rw [hcot]; exact hJ) (by rw [hcot]; exact hN) hnc
  have hkey1 : (upsertLeg db tripId fromId toId mode
      (transNotesParam nts)).transportation.countP
        (legKey tripId fromId toId) ≤ 1 :=
    le_of_eq (countP_upsertLeg db tripId fromId toId mode
      (transNotesParam nts) hkey)
  refine ⟨by rw [h1], by rw [h2], ?_, ?_, ?_⟩
  · exact countP_upsertLeg _ tripId fromId toId mode (transNotesParam nts)
      hkey1
  · exact findLeg_upsertLeg _ tripId fromId toId mode (transNotesParam nts)
  · obtain ⟨lg, hlg, _, _⟩ := findLeg_upsertLeg db tripId fromId toId mode
      (transNotesParam nts)
    exact upsertLeg_length_some _ tripId fromId toId mode
      (transNotesParam nts) lg hlg

/-- C4 witness: upserting the train leg 10 → 11 twice on the sample
store. -/
theorem upsert_idempotent_witness :
    (putTransportation dbAB (some 1) (some 1) (some 10)
        { toCityId := some 11, mode := some "train", notes := .undef }).1
      = upsertLeg dbAB 1 10 11 "train" (transNotesParam .undef)
    ∧ (putTransportation (upsertLeg dbAB 1 10 11 "train"
          (transNotesParam .undef))
        (some 1) (some 1) (some 10)
        { toCityId := some 11, mode := some "train", notes := .undef }).1
      = upsertLeg (upsertLeg dbAB 1 10 11 "train" (transNotesParam .undef))
          1 10 11 "train" (transNotesParam .undef)
    ∧ (upsertLeg (upsertLeg dbAB 1 10 11 "train" (transNotesParam .undef))
        1 10 11 "train"
        (transNotesParam .undef)).transportation.countP (legKey 1 10 11) = 1
    ∧ (∃ lg, findLeg
        (upsertLeg (upsertLeg dbAB 1 10 11 "train" (transNotesParam .undef))
          1 10 11 "train" (transNotesParam .undef)) 1 10 11 = some lg
        ∧ lg.mode = "train" ∧ lg.notes = transNotesParam .undef)
    ∧ (upsertLeg (upsertLeg dbAB 1 10 11 "train" (transNotesParam .undef))
        1 10 11 "train" (transNotesParam .undef)).transportation.length
      = (upsertLeg dbAB 1 10 11 "train"
          (transNotesParam .undef)).transportation.length :=
  upsert_idempotent dbAB 1 1 10 11 "train" .undef 0
    { id := 11, name := "B", nights := 1, notes := none, sort_order := 1,
      trip_id := 1 }
    (by decide) (by decide) (by decide) (by decide) (by decide) (by decide)
    (by decide) (by decide) (by decide)

/-- C8: for an authenticated caller, every mutating city/leg operation
responds identically when the target trip does not exist and when it
exists but belongs to a different user: the four city handlers produce
the very same 404 "trip not found or unauthorized" failure in both runs,
and the two transportation handlers produce equal responses in both runs
(their request-only pre-checks do not read the store).  Nothing in the
response distinguishes the two stores. -/
theorem ownership_failure_indistinguishable (dbA dbB : DB) (u tripId : Int)
    (ht : tripId ≠ 0)
    (hA : ∀ tr ∈ dbA.trips, tr.id ≠ tripId)
    (hB : ∀ tr ∈ dbB.trips, tr.id = tripId → tr.user_id ≠ u) :
    (∀ body : CityPostBody,
      (postCity dbA (some u) (some tripId) body).2
        = .err 404 "trip not found or unauthorized"
      ∧ (postCity dbB (some u) (some tripId) body).2
        = .err 404 "trip not found or unauthorized")
    ∧ (∀ (cityIdP : Option Int) (body : CityPutBody),
      (putCity dbA (some u) (some tripId) cityIdP body).2
        = .err 404 "trip not found or unauthorized"
      ∧ (putCity dbB (some u) (some tripId) cityIdP body).2
        = .err 404 "trip not found or unauthorized")
    ∧ (∀ sov : SortOrderVal,
      (reorderCities dbA (some u) (some tripId) sov).2
        = .err 404 "trip not found or unauthorized"
      ∧ (reorderCities dbB (some u) (some tripId) sov).2
        = .err 404 "trip not found or unauthorized")
    ∧ (∀ cityIdP : Option Int,
      (deleteCity dbA (some u) (some tripId) cityIdP).2
        = .err 404 "trip not found or unauthorized"
      ∧ (deleteCity dbB (some u) (some tripId) cityIdP).2
        = .err 404 "trip not found or unauthorized")
    ∧ (∀ (fromP : Option Int) (body : TransPutBody),
      (putTransportation dbA (some u) (some tripId) fromP body).2
        = (putTransportation dbB (some u) (some tripId) fromP body).2)
    ∧ (∀ fromP : Option Int,
      (deleteTransportation dbA (some u) (some tripId) fromP).2
        = (deleteTransportation dbB (some u) (some tripId) fromP).2) := by
  have hpt : parseId (some tripId) = some tripId := by simp [parseId, ht]
  have hfA : findTrip dbA tripId u = none := by
    unfold findTrip
    rw [List.find?_eq_none]
    intro tr htr
    simp only [Bool.and_eq_true, beq_iff_eq]
    rintro ⟨h1, _⟩
    exact hA tr htr h1
  have hfB : findTrip dbB tripId u = none := by
    unfold findTrip
    rw [List.find?_eq_none]
    intro tr htr
    simp only [Bool.and_eq_true, beq_iff_eq]
    rintro ⟨h1, h2⟩
    exact hB tr htr h1 h2
  refine ⟨?_, ?_, ?_, ?_, ?_, ?_⟩
  · intro body
    constructor
    · unfold postCity; simp [hpt, hfA]
    · unfold postCity; simp [hpt, hfB]
  · intro cityIdP body
    constructor
    · unfold putCity; simp [hpt, hfA]
    · unfold putCity; simp [hpt, hfB]
  · intro sov
    constructor
    · unfold reorderCities; simp [hpt, hfA]
    · unfold reorderCities; simp [hpt, hfB]
  · intro cityIdP
    constructor
    · unfold deleteCity; simp [hpt, hfA]
    · unfold deleteCity; simp [hpt, hfB]
  · intro fromP body
    cases hp : parseId fromP with
    | none => unfold putTransportation; simp [hpt, hp]
    | some fid =>
      cases hto : parseId body.toCityId with
      | none => unfold putTransportation; simp [hpt, hp, hto]
      | some toId =>
        cases hm : body.mode with
        | none => unfold putTransportation; simp [hpt, hp, hto, hm]
        | some mode =>
          by_cases hmok : mode ∈ allowedModes
          · unfold putTransportation; simp [hpt, hp, hto, hm, hmok, hfA, hfB]
          · unfold putTransportation; simp [hpt, hp, hto, hm, hmok]
  · intro fromP
    cases hp : parseId fromP with
    | none => unfold deleteTransportation; simp [hpt, hp]
    | some fid => unfold deleteTransportation; simp [hpt, hp, hfA, hfB]

/-- C8 witness: creating a city in trip 1 when no trips exist and when
trip 1 belongs to user 2 yields the identical 404 response. -/
theorem ownership_failure_indistinguishable_witness :
    (postCity dbNoTrip (some 1) (some 1)
        { name := .str "C", nights := .undef, notes := .undef }).2
      = .err 404 "trip not found or unauthorized"
    ∧ (postCity dbForeignTrip (some 1) (some 1)
        { name := .str "C", nights := .undef, notes := .undef }).2
      = .err 404 "trip not found or unauthorized" :=
  (ownership_failure_indistinguishable dbNoTrip dbForeignTrip 1 1
      (by decide) (by decide) (by decide)).1
    { name := .str "C", nights := .undef, notes := .undef }

instance : IsTotal City cityLe := by
  constructor
  intro a b
  unfold cityLe
  omega

instance : IsTrans City cityLe := by
  constructor
  intro a b c hab hbc
  unfold cityLe at hab hbc ⊢
  omega

/-- `jsFindIndex` returns position `i` when the element there matches and
no earlier one does. -/
lemma jsFindIndex_eq_some_of_get (l : List α) (p : α → Bool) :
    ∀ (i : Nat) (hi : i < l.length), p (l.get ⟨i, hi⟩) = true →
    (∀ j (hj : j < i), p (l.get ⟨j, Nat.lt_trans hj hi⟩) = false) →
    jsFindIndex p l = some i := by
  induction l with
  | nil => intro i hi; cases hi
  | cons a as ih =>
    intro i hi hp hbefore
    cases i with
    | zero =>
      have hp0 : p a = true := hp
      simp [jsFindIndex, hp0]
    | succ j =>
      have ha : p a = false := hbefore 0 (Nat.succ_pos j)
      have hj : j < as.length := Nat.lt_of_succ_lt_succ hi
      have hrec : jsFindIndex p as = some j :=
        ih j hj hp (fun j2 hj2 => hbefore (j2 + 1) (Nat.succ_lt_succ hj2))
      simp [jsFindIndex, ha, hrec]

/-- `idxIn` of the element at a position of a duplicate-free list is that
position. -/
lemma idxIn_get (cids : List Int) (hnd : cids.Nodup) :
    ∀ (i : Nat) (hi : i < cids.length),
      idxIn cids (cids.get ⟨i, hi⟩) = some i := by
  induction cids with
  | nil => intro i hi; cases hi
  | cons c cs ih =>
    intro i hi
    cases i with
    | zero => simp [idxIn]
    | succ j =>
      have hj : j < cs.length := Nat.lt_of_succ_lt_succ hi
      have hne : cs.get ⟨j, hj⟩ ≠ c := by
        intro he
        exact (List.nodup_cons.mp hnd).1 (he ▸ List.get_mem cs j hj)
      have hrec : idxIn cs (cs.get ⟨j, hj⟩) = some j := ih hnd.of_cons j hj
      rw [List.get_eq_getElem] at hne hrec
      simp [idxIn, hne, hrec]

/-- `idxIn` finds every member. -/
lemma idxIn_isSome_of_mem (cids : List Int) (x : Int) (hx : x ∈ cids) :
    (idxIn cids x).isSome = true := by
  induction cids with
  | nil => cases hx
  | cons c cs ih =>
    by_cases he : x = c
    · simp [idxIn, he]
    · have hx' : x ∈ cs := by
        rcases List.mem_cons.mp hx with h | h
        · exact absurd h he
        · exact h
      have := ih hx'
      cases hj : idxIn cs x with
      | none => rw [hj] at this; cases this
      | some j => simp [idxIn, he, hj]

/-- `idxIn` only returns in-range positions holding the sought value. -/
lemma idxIn_spec (cids : List Int) (x : Int) :
    ∀ j, idxIn cids x = some j →
      ∃ hj : j < cids.length, cids.get ⟨j, hj⟩ = x := by
  induction cids with
  | nil => intro j h; cases h
  | cons c cs ih =>
    intro j h
    by_cases he : x = c
    · have h0 : j = 0 := by
        simp [idxIn, he] at h
        omega
      subst h0
      exact ⟨Nat.succ_pos cs.length, he.symm⟩
    · simp only [idxIn, if_neg he] at h
      cases hj' : idxIn cs x with
      | none => rw [hj'] at h; cases h
      | some j' =>
        rw [hj'] at h
        have hjj : j = j' + 1 := by
          simp at h
          omega
        subst hjj
        obtain ⟨hlt, hget⟩ := ih j' hj'
        exact ⟨Nat.succ_lt_succ hlt, hget⟩

/-- `idxIn` misses exactly the non-members. -/
lemma idxIn_eq_none_of_not_mem (cids : List Int) (x : Int)
    (hx : x ∉ cids) : idxIn cids x = none := by
  cases hj : idxIn cids x with
  | none => rfl
  | some j =>
    obtain ⟨hlt, hget⟩ := idxIn_spec cids x j hj
    exact absurd (hget ▸ List.get_mem cids j hlt) hx

/-- Every entry of a dense reorder body over ids of the trip's cities is
valid. -/
lemma denseFrom_valid (db : DB) (tripId : Int) (cids : List Int) :
    ∀ n : Nat,
      (∀ c ∈ cids, c ≠ 0 ∧ (findCityInTrip db c tripId).isSome = true) →
      ∀ e ∈ denseFrom n cids, entryValid db tripId e = true := by
  induction cids with
  | nil => intro n _ e he; cases he
  | cons c cs ih =>
    intro n hok e he
    rcases List.mem_cons.mp he with rfl | hrest
    · have h1 := hok c (List.mem_cons_self c cs)
      simp [entryValid, parseId, h1.1, h1.2]
    · exact ih (n + 1)
        (fun c' hc' => hok c' (List.mem_cons_of_mem _ hc')) e hrest

/-- The dense-reorder write of a row keeps its id. -/
lemma denseMap_id (cids : List Int) (n : Nat) (r : City) :
    (match idxIn cids r.id with
      | some j => { r with sort_order := (n : Int) + j }
      | none => r).id = r.id := by
  cases idxIn cids r.id <;> rfl

/-- The dense-reorder write of a row keeps its trip. -/
lemma denseMap_trip_id (cids : List Int) (n : Nat) (r : City) :
    (match idxIn cids r.id with
      | some j => { r with sort_order := (n : Int) + j }
      | none => r).trip_id = r.trip_id := by
  cases idxIn cids r.id <;> rfl

/-- Applying a dense reorder body over duplicate-free nonzero ids sets
each row whose id occurs in the list to the start index plus its
position, and leaves every other row unchanged. -/
lemma applyWrites_denseFrom (cids : List Int) :
    ∀ (db : DB) (n : Nat), cids.Nodup → (∀ c ∈ cids, c ≠ 0) →
      (applyWrites db (denseFrom n cids)).cities
        = db.cities.map (fun r =>
            match idxIn cids r.id with
            | some j => { r with sort_order := (n : Int) + j }
            | none => r) := by
  induction cids with
  | nil =>
    intro db n _ _
    show db.cities = _
    simp [idxIn]
  | cons c cs ih =>
    intro db n hnd hnz
    have hc0 : c ≠ 0 := hnz c (List.mem_cons_self c cs)
    have hstep : applyWrites db (denseFrom n (c :: cs))
        = applyWrites (writeEntry db { id := some c, index := (n : Int) })
            (denseFrom (n + 1) cs) := rfl
    rw [hstep, ih (writeEntry db { id := some c, index := (n : Int) }) (n + 1)
      hnd.of_cons (fun c' hc' => hnz c' (List.mem_cons_of_mem _ hc'))]
    have hwc : (writeEntry db { id := some c, index := (n : Int) }).cities
        = db.cities.map (fun r =>
            if r.id == c then { r with sort_order := (n : Int) } else r) := by
      unfold writeEntry
      have hp : parseId (some c) = some c := by simp [parseId, hc0]
      rw [hp]
    rw [hwc, List.map_map]
    apply List.map_congr_left
    intro r _
    by_cases hre : r.id = c
    · have hcn : idxIn cs c = none :=
        idxIn_eq_none_of_not_mem cs c (List.nodup_cons.mp hnd).1
      simp [Function.comp, hre, idxIn, hcn]
    · have hif : (if r.id == c then { r with sort_order := (n : Int) }
          else r) = r := by simp [hre]
      simp only [Function.comp]
      rw [hif]
      cases hj : idxIn cs r.id with
      | none =>
        have hall : idxIn (c :: cs) r.id = none := by simp [idxIn, hre, hj]
        simp [hj, hall]
      | some j =>
        have hall : idxIn (c :: cs) r.id = some (j + 1) := by
          simp [idxIn, hre, hj]
        simp [hj, hall, City.mk.injEq]
        omega

/-- C2 (amended): a Reorder whose entries carry the dense zero-based
positions as their `index` fields and whose ids cover exactly the trip's
cities succeeds, assigns the city listed at position `i` sort key `i`,
and afterwards the Adjacency Resolver maps each listed city to the next
one in the submitted order. -/
theorem reorder_dense_covering_adjacency (db : DB) (uid tripId : Int)
    (cids : List Int) (ht : tripId ≠ 0)
    (htrip : (findTrip db tripId uid).isSome = true)
    (hnodup : (db.cities.map City.id).Nodup)
    (hnz : ∀ c ∈ cids, c ≠ 0)
    (hcover : ((db.cities.filter
        (fun c => c.trip_id == tripId)).map City.id).Perm cids) :
    (reorderCities db (some uid) (some tripId)
        (.arr (denseFrom 0 cids))).2 = .okEmpty
    ∧ (∀ i, (hi : i < cids.length) →
        ∀ c ∈ (reorderCities db (some uid) (some tripId)
            (.arr (denseFrom 0 cids))).1.cities,
          c.id = cids.get ⟨i, hi⟩ → c.sort_order = (i : Int))
    ∧ (∀ i, (hi : i + 1 < cids.length) →
        (nextCityOf (reorderCities db (some uid) (some tripId)
              (.arr (denseFrom 0 cids))).1 tripId
            (cids.get ⟨i, Nat.lt_of_succ_lt hi⟩)).map City.id
          = some (cids.get ⟨i + 1, hi⟩)) := by
  set rows : List City := db.cities.filter (fun c => c.trip_id == tripId)
    with hrows
  have hsubl : (rows.map City.id).Sublist (db.cities.map City.id) :=
    List.Sublist.map City.id (List.filter_sublist db.cities)
  have hnodupRows : (rows.map City.id).Nodup :=
    List.Nodup.sublist hsubl hnodup
  have hnodupCids : cids.Nodup := hcover.nodup hnodupRows
  have hok : ∀ c ∈ cids,
      c ≠ 0 ∧ (findCityInTrip db c tripId).isSome = true := by
    intro c hc
    refine ⟨hnz c hc, ?_⟩
    have hmem : c ∈ rows.map City.id := hcover.mem_iff.mpr hc
    obtain ⟨r, hr, hrid⟩ := List.mem_map.mp hmem
    have hrmem : r ∈ db.cities := (List.mem_filter.mp hr).1
    have hrp : (r.trip_id == tripId) = true := (List.mem_filter.mp hr).2
    apply List.find?_isSome.mpr
    refine ⟨r, hrmem, ?_⟩
    simp only [Bool.and_eq_true, beq_iff_eq]
    exact ⟨hrid, by simpa using hrp⟩
  have hres : reorderCities db (some uid) (some tripId)
      (.arr (denseFrom 0 cids))
      = (applyWrites db (denseFrom 0 cids), .okEmpty) := by
    rw [reorderCities_to_loop db uid tripId _ ht htrip]
    exact reorderLoop_all_valid tripId _ db
      (denseFrom_valid db tripId cids 0 hok)
  set F : City → City := fun r =>
      match idxIn cids r.id with
      | some j => { r with sort_order := ((0 : Nat) : Int) + j }
      | none => r with hF
  have hcits : (applyWrites db (denseFrom 0 cids)).cities
      = db.cities.map F :=
    applyWrites_denseFrom cids db 0 hnodupCids hnz
  have hrows' : (applyWrites db (denseFrom 0 cids)).cities.filter
      (fun c => c.trip_id == tripId) = rows.map F := by
    rw [hcits, List.filter_map]
    have hpf : ((fun c : City => c.trip_id == tripId) ∘ F)
        = (fun c : City => c.trip_id == tripId) := by
      funext r
      simp only [Function.comp, hF]
      rw [denseMap_trip_id]
    rw [hpf]
  set S : List City :=
    citiesOfTrip (applyWrites db (denseFrom 0 cids)) tripId with hS
  have hSdef : S = List.insertionSort cityLe (rows.map F) := by
    rw [hS]
    unfold citiesOfTrip
    rw [hrows']
  have hperm : S.Perm (rows.map F) := by
    rw [hSdef]
    exact List.perm_insertionSort cityLe _
  have hsorted : List.Sorted cityLe S := by
    rw [hSdef]
    exact List.sorted_insertionSort cityLe _
  set g : Int → Int := fun x =>
      match idxIn cids x with
      | some j => ((0 : Nat) : Int) + j
      | none => 0 with hg
  have hmapsort : (rows.map F).map City.sort_order
      = (rows.map City.id).map g := by
    rw [List.map_map, List.map_map]
    apply List.map_congr_left
    intro r hr
    have hmemid : r.id ∈ cids :=
      hcover.mem_iff.mp (List.mem_map_of_mem City.id hr)
    obtain ⟨j, hj⟩ :=
      Option.isSome_iff_exists.mp (idxIn_isSome_of_mem cids r.id hmemid)
    simp only [Function.comp, hF, hg, hj]
  have hcidsmap : cids.map g
      = List.map (Nat.cast : Nat → Int) (List.range cids.length) := by
    apply List.ext_get
    · rw [List.length_map, List.length_map, List.length_range]
    · intro i h1 h2
      have hi : i < cids.length := by
        rw [List.length_map] at h1
        exact h1
      have hgi : idxIn cids (cids.get ⟨i, hi⟩) = some i :=
        idxIn_get cids hnodupCids i hi
      rw [List.get_eq_getElem] at hgi
      rw [List.get_eq_getElem, List.get_eq_getElem, List.getElem_map,
        List.getElem_map, List.getElem_range]
      simp only [hg, hgi]
      simp
  have hSmap : S.map City.sort_order
      = List.map (Nat.cast : Nat → Int) (List.range cids.length) := by
    have p1 : (S.map City.sort_order).Perm
        ((rows.map F).map City.sort_order) := hperm.map _
    rw [hmapsort] at p1
    have p2 := hcover.map g
    rw [hcidsmap] at p2
    have hs1 : List.Sorted (fun a b : Int => a ≤ b)
        (S.map City.sort_order) := by
      apply List.pairwise_map.mpr
      exact List.Pairwise.imp
        (fun hab => by
          unfold cityLe at hab
          rcases hab with h | ⟨h1, _⟩
          · exact le_of_lt h
          · exact le_of_eq h1) hsorted
    have hs2 : List.Sorted (fun a b : Int => a ≤ b)
        (List.map (Nat.cast : Nat → Int) (List.range cids.length)) := by
      apply List.pairwise_map.mpr
      exact List.Pairwise.imp (fun hab => by exact_mod_cast hab)
        (List.sorted_le_range cids.length)
    exact List.eq_of_perm_of_sorted (p1.trans p2) hs1 hs2
  have hSlen : S.length = cids.length := by
    have hlen := congrArg List.length hSmap
    simpa using hlen
  have hsortAt : ∀ i (hi : i < cids.length) (hSi : i < S.length),
      (S.get ⟨i, hSi⟩).sort_order = (i : Int) := by
    intro i hi hSi
    have hh1 : i < (S.map City.sort_order).length := by simpa using hSi
    have hh2 : i <
        (List.map (Nat.cast : Nat → Int) (List.range cids.length)).length := by
      simpa using hi
    have e0 : (S.map City.sort_order)[i]?
        = (List.map (Nat.cast : Nat → Int) (List.range cids.length))[i]? := by
      rw [hSmap]
    rw [List.getElem?_eq_getElem hh1, List.getElem?_eq_getElem hh2] at e0
    have e1 := Option.some_inj.mp e0
    simpa [List.get_eq_getElem] using e1
  have hIdAt : ∀ i (hi : i < cids.length) (hSi : i < S.length),
      (S.get ⟨i, hSi⟩).id = cids.get ⟨i, hi⟩ := by
    intro i hi hSi
    have hmem : S.get ⟨i, hSi⟩ ∈ rows.map F :=
      hperm.mem_iff.mp (List.get_mem S i hSi)
    obtain ⟨r0, hr0, hFr0⟩ := List.mem_map.mp hmem
    have hidmem : r0.id ∈ cids :=
      hcover.mem_iff.mp (List.mem_map_of_mem City.id hr0)
    obtain ⟨j, hj⟩ :=
      Option.isSome_iff_exists.mp (idxIn_isSome_of_mem cids r0.id hidmem)
    have hFid : (F r0).id = r0.id := by
      simp only [hF]
      exact denseMap_id cids 0 r0
    have hFsort : (F r0).sort_order = ((0 : Nat) : Int) + j := by
      simp only [hF, hj]
    have hsi := hsortAt i hi hSi
    rw [← hFr0] at hsi
    have hji : j = i := by
      rw [hFsort] at hsi
      omega
    rw [← hFr0, hFid]
    obtain ⟨hlt, hget⟩ := idxIn_spec cids r0.id j hj
    subst hji
    exact hget.symm
  have hfindIdx : ∀ i (hi : i < cids.length),
      jsFindIndex (fun c => c.id == cids.get ⟨i, hi⟩) S = some i := by
    intro i hi
    have hSi : i < S.length := by rw [hSlen]; exact hi
    apply jsFindIndex_eq_some_of_get S _ i hSi
    · have hthis := hIdAt i hi hSi
      simp only [List.get_eq_getElem] at hthis
      simp [hthis]
    · intro j hj
      have hji : j < cids.length := Nat.lt_trans hj hi
      have hSj : j < S.length := by rw [hSlen]; exact hji
      have hidj := hIdAt j hji hSj
      have hne : cids.get ⟨j, hji⟩ ≠ cids.get ⟨i, hi⟩ := by
        intro he
        have hinj := List.nodup_iff_injective_get.mp hnodupCids he
        have hjieq : j = i := by simpa using hinj
        omega
      simp only [List.get_eq_getElem] at hidj hne
      simp [hidj, hne]
  refine ⟨?_, ?_, ?_⟩
  · rw [hres]
  · intro i hi c hc hcid
    rw [hres] at hc
    have hc' : c ∈ db.cities.map F := by
      rw [← hcits]
      exact hc
    obtain ⟨r0, hr0, hFr0⟩ := List.mem_map.mp hc'
    have hr0id : r0.id = cids.get ⟨i, hi⟩ := by
      rw [← hcid, ← hFr0]
      exact (denseMap_id cids 0 r0).symm
    have hidx : idxIn cids r0.id = some i := by
      rw [hr0id]
      exact idxIn_get cids hnodupCids i hi
    have hFval : F r0 = { r0 with sort_order := ((0 : Nat) : Int) + i } := by
      simp only [hF, hidx]
    rw [← hFr0, hFval]
    simp
  · intro i hi
    have hii : i < cids.length := Nat.lt_of_succ_lt hi
    rw [hres]
    show (nextCityOf (applyWrites db (denseFrom 0 cids)) tripId
        (cids.get ⟨i, Nat.lt_of_succ_lt hi⟩)).map City.id
      = some (cids.get ⟨i + 1, hi⟩)
    unfold nextCityOf
    rw [← hS, hfindIdx i hii]
    have hS1 : i + 1 < S.length := by rw [hSlen]; exact hi
    change (S[i + 1]?).map City.id = some (cids.get ⟨i + 1, hi⟩)
    rw [List.getElem?_eq_getElem hS1]
    have hid1 := hIdAt (i + 1) hi hS1
    simp only [List.get_eq_getElem] at hid1 ⊢
    simp [hid1]

/-- C2 counterexample: a reorder entry for city 10 carrying index field 5
succeeds and stores sort key 5, not the entry's dense zero-based position
0: the handler writes the client-supplied `index`, not the list
position. -/
theorem reorder_index_field_cex :
    (reorderCities dbAB (some 1) (some 1)
        (.arr [{ id := some 10, index := 5 }])).2 = .okEmpty
    ∧ (findCityById (reorderCities dbAB (some 1) (some 1)
        (.arr [{ id := some 10, index := 5 }])).1 10).map City.sort_order
      = some 5
    ∧ ((5 : Int) ≠ 0) := by
  decide

/-- C2 witness: submitting the trip's cities in reversed order [11, 10]
with dense indices on the sample store. -/
theorem reorder_dense_covering_adjacency_witness :
    (reorderCities dbAB (some 1) (some 1)
        (.arr (denseFrom 0 [11, 10]))).2 = .okEmpty
    ∧ (∀ i, (hi : i < [(11 : Int), 10].length) →
        ∀ c ∈ (reorderCities dbAB (some 1) (some 1)
            (.arr (denseFrom 0 [11, 10]))).1.cities,
          c.id = [(11 : Int), 10].get ⟨i, hi⟩ → c.sort_order = (i : Int))
    ∧ (∀ i, (hi : i + 1 < [(11 : Int), 10].length) →
        (nextCityOf (reorderCities dbAB (some 1) (some 1)
              (.arr (denseFrom 0 [11, 10]))).1 1
            ([(11 : Int), 10].get ⟨i, Nat.lt_of_succ_lt hi⟩)).map City.id
          = some ([(11 : Int), 10].get ⟨i + 1, hi⟩)) :=
  reorder_dense_covering_adjacency dbAB 1 1 [11, 10] (by decide) (by decide)
    (by decide) (by decide) (by decide)

end Trippino
